import Mathlib

/-!
Verification of the rentcast MCP server's API usage governor, request
orchestration layer and configuration service.

The configuration service (`ConfigService`) and the tool handlers
(`buildPropertySearchParams`, `buildAVMSearchParams`, `createErrorResponse`,
`createSuccessResponse`) are embedded directly from the TypeScript source in
`src/services/config.ts` and `src/index.ts`.  The Request Governor and
Upstream Client (`rentcast-api.ts`) are not part of the provided sources, so
they are modelled from the specification (spec.md sections 3 to 5); the doc
comment of each such definition says so.

Machine integers are modelled as `Nat` (timestamps, counters, HTTP status
codes) and `Rat` (JavaScript numbers that may be fractional); absent and
null JavaScript values are both modelled as `Option.none`, which is faithful
for every check the embedded code performs (truthiness and the explicit
`!== undefined && !== null` tests treat `null` and `undefined` alike).
-/

/-- Modelled from the spec: the Session Budget and Rate Window owned by the
Request Governor of the missing `rentcast-api.ts` (spec.md section 3).
`callsMade` counts permitted calls, `maxCalls` is the fixed session ceiling,
`lastCallTimestamp` is the instant of the most recently permitted call (or
`none`), `rateLimitEnabled` and `limitPerMinute` come from configuration. -/
structure Governor where
  callsMade : Nat
  maxCalls : Nat
  lastCallTimestamp : Option Nat
  rateLimitEnabled : Bool
  limitPerMinute : Nat
deriving Repr, DecidableEq

/-- Modelled from the spec: the fresh Governor at process start, with
`callsMade = 0` and no previous call timestamp (spec.md section 3). -/
def Governor.init (maxCalls : Nat) (rateLimitEnabled : Bool)
    (limitPerMinute : Nat) : Governor :=
  { callsMade := 0
    maxCalls := maxCalls
    lastCallTimestamp := none
    rateLimitEnabled := rateLimitEnabled
    limitPerMinute := limitPerMinute }

/-- Modelled from the spec: the derived minimum inter-call interval,
`60000ms / limitPerMinute` (spec.md section 3). -/
def minInterval (g : Governor) : Nat :=
  60000 / g.limitPerMinute

/-- Modelled from the spec: the outcome of `requestPermission()`.  A grant
carries the instant at which the call actually proceeds (after any
rate-limit suspension); the only denial kind is `QuotaExhausted`
(spec.md section 4.1). -/
inductive Permission where
  | granted (grantTime : Nat)
  | quotaExhausted
deriving Repr, DecidableEq

/-- Modelled from the spec: `requestPermission()` of the Request Governor
(spec.md section 4.1).  Given the current instant `now`:
step 1 denies with `QuotaExhausted` when `callsMade >= maxCalls`, mutating
nothing; otherwise step 2 suspends until the minimum interval since
`lastCallTimestamp` has elapsed when rate limiting is enabled (the grant
time is the instant the call proceeds), step 3 records that instant as
`lastCallTimestamp`, step 4 increments `callsMade`, and step 5 grants.
The check-and-increment is atomic (spec.md section 5), so every concurrent
schedule is an interleaving of whole `requestPermission` steps. -/
def requestPermission (now : Nat) (g : Governor) : Permission × Governor :=
  if g.callsMade ≥ g.maxCalls then
    (Permission.quotaExhausted, g)
  else
    let start : Nat :=
      match g.lastCallTimestamp with
      | some t =>
          if g.rateLimitEnabled ∧ now - t < minInterval g then
            t + minInterval g
          else
            now
      | none => now
    (Permission.granted start,
      { g with callsMade := g.callsMade + 1, lastCallTimestamp := some start })

/-- Reachable Governor states: the fresh state at process start, and
everything produced by `requestPermission` steps. -/
inductive Reachable : Governor → Prop
  | init (maxCalls : Nat) (rl : Bool) (lpm : Nat) :
      Reachable (Governor.init maxCalls rl lpm)
  | step (now : Nat) (g : Governor) :
      Reachable g → Reachable (requestPermission now g).2

/-- Outcome counts of a batch of permission requests. -/
structure PermitCounts where
  grants : Nat
  denials : Nat
  final : Governor
deriving Repr, DecidableEq

/-- Runs one `requestPermission` step per entry of `times` (an arbitrary
interleaving of concurrently issued requests, each step atomic), counting
grants and denials. -/
def runPermits (times : List Nat) (g : Governor) : PermitCounts :=
  match times with
  | [] => { grants := 0, denials := 0, final := g }
  | t :: rest =>
      match requestPermission t g with
      | (Permission.quotaExhausted, g1) =>
          let r := runPermits rest g1
          { r with denials := r.denials + 1 }
      | (Permission.granted _, g1) =>
          let r := runPermits rest g1
          { r with grants := r.grants + 1 }

/-- Modelled from the spec: the possible outcomes of the single HTTP request
issued by the Upstream Client of the missing `rentcast-api.ts` (spec.md
section 4.2 step 4).  A `response` carries the HTTP status and the body as
already classified by JSON parsing: `some payload` when the body parsed,
`none` when it was malformed or non-JSON.  `timeout` is the configured
timeout elapsing, `transportFailure` a connection-level failure. -/
inductive HttpOutcome where
  | response (status : Nat) (parsedBody : Option String)
  | timeout
  | transportFailure (message : String)
deriving Repr, DecidableEq

/-- Modelled from the spec: the Result Envelope (spec.md section 3):
`success`, `data` present only on success, `error` present only on failure,
and `callsRemaining` always present. -/
structure Envelope where
  success : Bool
  data : Option String
  error : Option String
  callsRemaining : Nat
deriving Repr, DecidableEq

instance : Inhabited Envelope :=
  ⟨{ success := false, data := none, error := none, callsRemaining := 0 }⟩

/-- Modelled from the spec: the Status Snapshot, a read-only projection of
Session Budget and Rate Window (spec.md section 3). -/
structure StatusSnapshot where
  callsRemaining : Nat
  maxCalls : Nat
  lastCallTime : Option Nat
  rateLimitEnabled : Bool
  rateLimitPerMinute : Nat
deriving Repr, DecidableEq

/-- Modelled from the spec: `getStatus()` of the Request Governor, a pure
read with no side effects (spec.md section 4.1). -/
def getStatus (g : Governor) : StatusSnapshot :=
  { callsRemaining := g.maxCalls - g.callsMade
    maxCalls := g.maxCalls
    lastCallTime := g.lastCallTimestamp
    rateLimitEnabled := g.rateLimitEnabled
    rateLimitPerMinute := g.limitPerMinute }

/-- Modelled from the spec: the quota-exhausted error message, describing the
exhausted session budget (spec.md section 4.2 step 1). -/
def quotaErrorMessage (maxCalls : Nat) : String :=
  "API call limit reached: " ++ toString maxCalls ++ " calls per session"

/-- Modelled from the spec: classification of an HTTP outcome into the
success flag, data and error of the Result Envelope (spec.md section 4.2
step 4): 2xx with parsed JSON succeeds; a malformed 2xx body is a parse
failure; 429 gets a distinguishable upstream-rate-limited message; other
4xx/5xx report the status; timeout and transport failures are described
distinctly.  The result triple is (success, data, error). -/
def classify (o : HttpOutcome) : Bool × Option String × Option String :=
  match o with
  | HttpOutcome.response status body =>
      if 200 ≤ status ∧ status < 300 then
        match body with
        | some d => (true, some d, none)
        | none => (false, none, some "Failed to parse upstream response body as JSON")
      else if status = 429 then
        (false, none, some "Upstream API rate limit exceeded (HTTP 429)")
      else
        (false, none, some ("Upstream HTTP error " ++ toString status))
  | HttpOutcome.timeout =>
      (false, none, some "Request timed out")
  | HttpOutcome.transportFailure msg =>
      (false, none, some ("Network failure: " ++ msg))

/-- Result of one governed call: the Result Envelope returned to the tool
handler, the Governor state afterwards, and whether the upstream network
was contacted at all. -/
structure CallResult where
  envelope : Envelope
  governor : Governor
  networkUsed : Bool
deriving Repr, DecidableEq

/-- Modelled from the spec: `call(operation, parameters)` of the Upstream
Client (spec.md section 4.2).  Step 1 asks the Governor for permission; on
`QuotaExhausted` it returns a failure envelope immediately with
`callsRemaining` 0 and performs no network activity.  On permission, the
budget has already been debited; the upstream request's outcome `outcome`
is classified per step 4 and `callsRemaining` is attached from the
Governor's post-call status (step 5).  The operation name, path and query
string do not affect governance and are not modelled here; the parameter
construction is verified separately on the embedded builder functions. -/
def call (now : Nat) (outcome : HttpOutcome) (g : Governor) : CallResult :=
  match requestPermission now g with
  | (Permission.quotaExhausted, g1) =>
      { envelope :=
          { success := false
            data := none
            error := some (quotaErrorMessage g1.maxCalls)
            callsRemaining := (getStatus g1).callsRemaining }
        governor := g1
        networkUsed := false }
  | (Permission.granted _, g1) =>
      let c := classify outcome
      { envelope :=
          { success := c.1
            data := c.2.1
            error := c.2.2
            callsRemaining := (getStatus g1).callsRemaining }
        governor := g1
        networkUsed := true }

/-- Runs one governed call per upstream outcome in `outs`, collecting the
envelopes in order. -/
def runCalls (now : Nat) (outs : List HttpOutcome) (g : Governor) :
    List Envelope × Governor :=
  match outs with
  | [] => ([], g)
  | o :: rest =>
      let r := call now o g
      let (envs, g1) := runCalls now rest r.governor
      (r.envelope :: envs, g1)

/-- An HTTP outcome is a failure unless it is a 2xx response whose body
parsed as JSON (spec.md section 4.2 step 4). -/
def isFailureOutcome (o : HttpOutcome) : Bool :=
  match o with
  | HttpOutcome.response status (some _) =>
      if 200 ≤ status ∧ status < 300 then false else true
  | HttpOutcome.response _ none => true
  | HttpOutcome.timeout => true
  | HttpOutcome.transportFailure _ => true

/-- One text content item of a tool response, embedded from the object
literals of createErrorResponse and createSuccessResponse in src/index.ts. -/
structure TextContent where
  type : String
  text : String
deriving Repr, DecidableEq

/-- A tool response, embedded from the shape returned by the handlers in
src/index.ts: a content array of text items. -/
structure ToolResponse where
  content : List TextContent
deriving Repr, DecidableEq

/-- Embedded from createErrorResponse in src/index.ts: the error text is
`message: error` when an error value is supplied and truthy (a non-empty
string), else just `message`. -/
def createErrorResponse (message : String) (error : Option String) : ToolResponse :=
  let errorText :=
    match error with
    | some e => if e.isEmpty then message else message ++ ": " ++ e
    | none => message
  { content := [{ type := "text", text := errorText }] }

/-- Embedded from createSuccessResponse in src/index.ts. -/
def createSuccessResponse (text : String) : ToolResponse :=
  { content := [{ type := "text", text := text }] }

/-- Embedded from the search_properties handler in src/index.ts (the other
handlers follow the identical shape): when the envelope reports failure the
handler returns createErrorResponse with the envelope's error, otherwise it
renders the data with the (out-of-scope) formatting layer `fmt` and returns
createSuccessResponse. -/
def toolBoundary (fmt : Option String → String) (env : Envelope) : ToolResponse :=
  if env.success then
    createSuccessResponse (fmt env.data)
  else
    createErrorResponse "Error searching properties" env.error

/-- A process environment: maps a variable name to its value, `none` when
unset.  JavaScript's `process.env[key]` yields `string | undefined`; a set
but empty variable is `some ""`. -/
def Env : Type := String → Option String

/-- JavaScript character class used by parseInt to skip leading whitespace. -/
def jsWhitespace (c : Char) : Bool :=
  c == ' ' || c == '\t' || c == '\n' || c == '\r'

/-- Numeric value of a list of decimal digit characters. -/
def digitsVal (cs : List Char) : Nat :=
  cs.foldl (fun a c => a * 10 + (c.toNat - '0'.toNat)) 0

/-- Embedding of JavaScript's parseInt(value, 10): skip leading whitespace,
accept an optional sign, then consume leading decimal digits, ignoring any
trailing garbage; `none` models NaN (no digit found). -/
def parseIntJS (s : String) : Option Int :=
  let cs := s.toList.dropWhile jsWhitespace
  match cs with
  | '-' :: rest =>
      let ds := rest.takeWhile Char.isDigit
      if ds.isEmpty then none else some (-(digitsVal ds : Int))
  | '+' :: rest =>
      let ds := rest.takeWhile Char.isDigit
      if ds.isEmpty then none else some ((digitsVal ds : Int))
  | _ =>
      let ds := cs.takeWhile Char.isDigit
      if ds.isEmpty then none else some ((digitsVal ds : Int))

/-- Embedded from ConfigService.getRequiredEnv in src/services/config.ts:
throws when the variable is falsy, that is unset or the empty string. -/
def getRequiredEnv (env : Env) (key : String) : Except String String :=
  match env key with
  | some v =>
      if v.isEmpty then
        Except.error ("Required environment variable " ++ key ++ " is not set")
      else
        Except.ok v
  | none => Except.error ("Required environment variable " ++ key ++ " is not set")

/-- Embedded from ConfigService.getEnv in src/services/config.ts:
`process.env[key] || defaultValue`, so unset or empty yields the default. -/
def getEnv (env : Env) (key : String) (defaultValue : String) : String :=
  match env key with
  | some v => if v.isEmpty then defaultValue else v
  | none => defaultValue

/-- Embedded from ConfigService.getNumberEnv in src/services/config.ts:
unset or empty yields the default; otherwise parseInt(value, 10), falling
back to the default (after a console warning) when the result is NaN. -/
def getNumberEnv (env : Env) (key : String) (defaultValue : Rat) : Rat :=
  match env key with
  | none => defaultValue
  | some v =>
      if v.isEmpty then defaultValue
      else
        match parseIntJS v with
        | none => defaultValue
        | some n => (n : Rat)

/-- Embedding of JavaScript's String.prototype.toLowerCase for the ASCII
values configuration variables hold: lower-cases every character. -/
def toLowerCase (s : String) : String :=
  String.mk (s.toList.map Char.toLower)

/-- Embedded from ConfigService.getBoolEnv in src/services/config.ts:
unset or empty yields the default; otherwise the flag is true exactly when
value.toLowerCase() === "true". -/
def getBoolEnv (env : Env) (key : String) (defaultValue : Bool) : Bool :=
  match env key with
  | none => defaultValue
  | some v =>
      if v.isEmpty then defaultValue
      else toLowerCase v == "true"

/-- Embedded from the ServerConfig record produced by
ConfigService.loadConfig in src/services/config.ts.  JavaScript numbers are
modelled as `Rat` (the source default 0.1 for delayBetweenCalls is not an
integer). -/
structure ServerConfig where
  rentcastApiKey : String
  rentcastBaseUrl : String
  maxApiCalls : Rat
  batchSize : Rat
  cacheDuration : Rat
  enableFallbackData : Bool
  delayBetweenCalls : Rat
  enableRateLimiting : Bool
  rateLimitPerMinute : Rat
  enableIdempotency : Bool
  optimizationStrategy : String
  enableSmartCaching : Bool
  enableDataMaximization : Bool
  logLevel : String
  debug : Bool
  timeoutSeconds : Rat
deriving Repr, DecidableEq

/-- Embedded from ConfigService.loadConfig in src/services/config.ts.  The
required RENTCAST_API_KEY is the only fallible lookup (it is also evaluated
first in the source's object literal); every other field has a built-in
default.  An `Except.error` models the constructor throwing, which aborts
process start since the singleton is built at module load. -/
def loadConfig (env : Env) : Except String ServerConfig :=
  match getRequiredEnv env "RENTCAST_API_KEY" with
  | Except.error e => Except.error e
  | Except.ok apiKey =>
      Except.ok
        { rentcastApiKey := apiKey
          rentcastBaseUrl := getEnv env "RENTCAST_BASE_URL" "https://api.rentcast.io/v1"
          maxApiCalls := getNumberEnv env "MAX_API_CALLS_PER_SESSION" 40
          batchSize := getNumberEnv env "BATCH_SIZE" 5
          cacheDuration := getNumberEnv env "CACHE_DURATION_HOURS" 24
          enableFallbackData := getBoolEnv env "ENABLE_FALLBACK_DATA" true
          delayBetweenCalls := getNumberEnv env "DELAY_BETWEEN_CALLS" (1 / 10)
          enableRateLimiting := getBoolEnv env "ENABLE_RATE_LIMITING" true
          rateLimitPerMinute := getNumberEnv env "RATE_LIMIT_PER_MINUTE" 60
          enableIdempotency := getBoolEnv env "ENABLE_IDEMPOTENCY" true
          optimizationStrategy := getEnv env "OPTIMIZATION_STRATEGY" "comprehensive_40_calls"
          enableSmartCaching := getBoolEnv env "ENABLE_SMART_CACHING" true
          enableDataMaximization := getBoolEnv env "ENABLE_DATA_MAXIMIZATION" true
          logLevel := getEnv env "LOG_LEVEL" "INFO"
          debug := getBoolEnv env "DEBUG" false
          timeoutSeconds := getNumberEnv env "TIMEOUT_SECONDS" 30 }

/-- JavaScript truthiness of an optional number: null and undefined are
falsy, as is 0 (NaN cannot arise for the pre-validated numeric fields). -/
def numTruthy : Option Rat → Bool
  | none => false
  | some x => decide (x ≠ 0)

/-- JavaScript truthiness of an optional string: null, undefined and the
empty string are falsy. -/
def strTruthy : Option String → Bool
  | none => false
  | some s => decide (s ≠ "")

/-- Input of buildPropertySearchParams in src/index.ts: the optional filter
fields the tool handler receives; `none` models both absent and null. -/
structure PropertySearchInput where
  limit : Option Rat
  city : Option String
  state : Option String
  zipCode : Option String
  bedrooms : Option Rat
  bathrooms : Option Rat
  propertyType : Option String
deriving Repr, DecidableEq

/-- The searchParams object assembled by buildPropertySearchParams in
src/index.ts; a field is `none` exactly when the source never assigns it. -/
structure PropertySearchOut where
  limit : Option Rat
  city : Option String
  state : Option String
  zipCode : Option String
  bedrooms : Option Rat
  bathrooms : Option Rat
  propertyType : Option String
deriving Repr, DecidableEq

/-- Embedded from buildPropertySearchParams in src/index.ts: every field is
copied under a JavaScript truthiness guard (`if (params.city) ...`), and
limit additionally requires includeLimit. -/
def buildPropertySearchParams (params : PropertySearchInput)
    (includeLimit : Bool) : PropertySearchOut :=
  { limit := if includeLimit && numTruthy params.limit then params.limit else none
    city := if strTruthy params.city then params.city else none
    state := if strTruthy params.state then params.state else none
    zipCode := if strTruthy params.zipCode then params.zipCode else none
    bedrooms := if numTruthy params.bedrooms then params.bedrooms else none
    bathrooms := if numTruthy params.bathrooms then params.bathrooms else none
    propertyType := if strTruthy params.propertyType then params.propertyType else none }

/-- Input of buildAVMSearchParams in src/index.ts. -/
structure AVMInput where
  address : Option String
  latitude : Option Rat
  longitude : Option Rat
  propertyId : Option String
  propertyType : Option String
  bedrooms : Option Rat
  bathrooms : Option Rat
  squareFootage : Option Rat
deriving Repr, DecidableEq

/-- The searchParams object assembled by buildAVMSearchParams in
src/index.ts. -/
structure AVMOut where
  address : Option String
  latitude : Option Rat
  longitude : Option Rat
  propertyId : Option String
  propertyType : Option String
  bedrooms : Option Rat
  bathrooms : Option Rat
  squareFootage : Option Rat
deriving Repr, DecidableEq

/-- Embedded from buildAVMSearchParams in src/index.ts: a truthy address
wins, else a truthy latitude and longitude pair, else a truthy propertyId;
propertyType is guarded by truthiness while bedrooms, bathrooms and
squareFootage use the explicit `!== undefined && !== null` presence test
(so numeric 0 is kept for those three). -/
def buildAVMSearchParams (params : AVMInput) : AVMOut :=
  let idFields : Option String × Option Rat × Option Rat × Option String :=
    if strTruthy params.address then
      (params.address, none, none, none)
    else if numTruthy params.latitude && numTruthy params.longitude then
      (none, params.latitude, params.longitude, none)
    else if strTruthy params.propertyId then
      (none, none, none, params.propertyId)
    else
      (none, none, none, none)
  { address := idFields.1
    latitude := idFields.2.1
    longitude := idFields.2.2.1
    propertyId := idFields.2.2.2
    propertyType := if strTruthy params.propertyType then params.propertyType else none
    bedrooms := if params.bedrooms.isSome then params.bedrooms else none
    bathrooms := if params.bathrooms.isSome then params.bathrooms else none
    squareFootage := if params.squareFootage.isSome then params.squareFootage else none }

/-- Concrete parameter object witnessing that a present, non-null numeric 0
is dropped by buildPropertySearchParams. -/
def p0 : PropertySearchInput :=
  { limit := none
    city := none
    state := none
    zipCode := none
    bedrooms := some 0
    bathrooms := none
    propertyType := none }

/-- Concrete AVM parameter object with latitude 0: both coordinates present
and non-null, yet latitude is JavaScript-falsy. -/
def q0 : AVMInput :=
  { address := none
    latitude := some 0
    longitude := some 1
    propertyId := some "p1"
    propertyType := none
    bedrooms := none
    bathrooms := none
    squareFootage := none }

/-- Concrete AVM parameter object with nonzero coordinates and a propertyId. -/
def q1 : AVMInput :=
  { address := none
    latitude := some 30
    longitude := some (-97)
    propertyId := some "p2"
    propertyType := none
    bedrooms := none
    bathrooms := none
    squareFootage := none }

/-- Concrete parameter object with truthy values for witness evaluation. -/
def p1 : PropertySearchInput :=
  { limit := some 20
    city := some "Austin"
    state := some "TX"
    zipCode := none
    bedrooms := some 2
    bathrooms := none
    propertyType := none }

/-- An environment that sets only the required API key. -/
def envKeyOnly : Env :=
  fun k => if k = "RENTCAST_API_KEY" then some "test-key" else none

/-- An environment that sets every variable to the string "1". -/
def envAllOne : Env :=
  fun _ => some "1"

/-- A Governor whose budget is exhausted. -/
def gExhausted : Governor :=
  { Governor.init 2 false 60 with callsMade := 2 }

/-- A Governor mid-session with one permitted call already recorded. -/
def gMid : Governor :=
  { Governor.init 40 true 60 with callsMade := 1, lastCallTimestamp := some 0 }

/-- A fresh Governor with the default configuration values. -/
def gFresh : Governor :=
  Governor.init 40 true 60

/-- A fresh Governor with rate limiting disabled. -/
def gNoRL : Governor :=
  Governor.init 40 false 60


theorem requestPermission_maxCalls (now : Nat) (g : Governor) :
    (requestPermission now g).2.maxCalls = g.maxCalls := by
  unfold requestPermission
  split
  · rfl
  · rfl

theorem requestPermission_denied_of_full (now : Nat) (g : Governor)
    (h : g.maxCalls ≤ g.callsMade) :
    requestPermission now g = (Permission.quotaExhausted, g) := by
  unfold requestPermission
  simp [h]

theorem requestPermission_callsMade_of_notfull (now : Nat) (g : Governor)
    (h : g.callsMade < g.maxCalls) :
    (requestPermission now g).2.callsMade = g.callsMade + 1 := by
  unfold requestPermission
  have h2 : ¬ g.callsMade ≥ g.maxCalls := Nat.not_le.mpr h
  simp [h2]

theorem requestPermission_granted_of_notfull (now : Nat) (g : Governor)
    (h : g.callsMade < g.maxCalls) :
    ∃ s, (requestPermission now g).1 = Permission.granted s := by
  unfold requestPermission
  have h2 : ¬ g.callsMade ≥ g.maxCalls := Nat.not_le.mpr h
  simp [h2]

theorem requestPermission_preserves_invariant (now : Nat) (g : Governor)
    (h : g.callsMade ≤ g.maxCalls) :
    (requestPermission now g).2.callsMade ≤ (requestPermission now g).2.maxCalls := by
  rw [requestPermission_maxCalls]
  by_cases hf : g.callsMade < g.maxCalls
  · rw [requestPermission_callsMade_of_notfull now g hf]
    exact hf
  · have he : g.maxCalls ≤ g.callsMade := Nat.not_lt.mp hf
    rw [requestPermission_denied_of_full now g he]
    exact h

theorem reachable_invariant (g : Governor) (h : Reachable g) :
    g.callsMade ≤ g.maxCalls := by
  induction h with
  | init m rl lpm => exact Nat.zero_le m
  | step now g hg ih => exact requestPermission_preserves_invariant now g ih

theorem runPermits_grants (times : List Nat) (g : Governor) :
    (runPermits times g).grants = min times.length (g.maxCalls - g.callsMade) := by
  induction times generalizing g with
  | nil => simp [runPermits]
  | cons t rest ih =>
      by_cases hf : g.callsMade < g.maxCalls
      · have h2 : ¬ g.callsMade ≥ g.maxCalls := Nat.not_le.mpr hf
        unfold runPermits requestPermission
        simp only [h2, if_false, ge_iff_le]
        rw [ih]
        simp only [List.length_cons, Governor.callsMade, Governor.maxCalls]
        omega
      · have he : g.maxCalls ≤ g.callsMade := Nat.not_lt.mp hf
        unfold runPermits
        rw [requestPermission_denied_of_full t g he]
        simp only [List.length_cons]
        rw [ih]
        have : g.maxCalls - g.callsMade = 0 := Nat.sub_eq_zero_of_le he
        omega

theorem runPermits_grants_le (times : List Nat) (g : Governor) :
    (runPermits times g).grants ≤ times.length := by
  rw [runPermits_grants]
  exact Nat.min_le_left _ _

theorem runPermits_denials (times : List Nat) (g : Governor) :
    (runPermits times g).denials = times.length - (runPermits times g).grants := by
  induction times generalizing g with
  | nil => simp [runPermits]
  | cons t rest ih =>
      by_cases hf : g.callsMade < g.maxCalls
      · have h2 : ¬ g.callsMade ≥ g.maxCalls := Nat.not_le.mpr hf
        unfold runPermits requestPermission
        simp only [h2, if_false, ge_iff_le]
        rw [ih]
        simp only [List.length_cons]
        omega
      · have he : g.maxCalls ≤ g.callsMade := Nat.not_lt.mp hf
        unfold runPermits
        rw [requestPermission_denied_of_full t g he]
        simp only [List.length_cons]
        rw [ih]
        have hg := runPermits_grants_le rest g
        omega

theorem call_governor (now : Nat) (outcome : HttpOutcome) (g : Governor) :
    (call now outcome g).governor = (requestPermission now g).2 := by
  unfold call
  rcases h : requestPermission now g with ⟨p, g1⟩
  cases p <;> rfl

theorem call_denied_of_full (now : Nat) (outcome : HttpOutcome) (g : Governor)
    (h : g.maxCalls ≤ g.callsMade) :
    call now outcome g =
      { envelope :=
          { success := false
            data := none
            error := some (quotaErrorMessage g.maxCalls)
            callsRemaining := g.maxCalls - g.callsMade }
        governor := g
        networkUsed := false } := by
  unfold call
  rw [requestPermission_denied_of_full now g h]
  rfl

theorem call_granted_shape (now : Nat) (outcome : HttpOutcome) (g : Governor)
    (h : g.callsMade < g.maxCalls) :
    call now outcome g =
      { envelope :=
          { success := (classify outcome).1
            data := (classify outcome).2.1
            error := (classify outcome).2.2
            callsRemaining :=
              (requestPermission now g).2.maxCalls - (requestPermission now g).2.callsMade }
        governor := (requestPermission now g).2
        networkUsed := true } := by
  obtain ⟨s, hs⟩ := requestPermission_granted_of_notfull now g h
  unfold call
  rcases hrp : requestPermission now g with ⟨p, g1⟩
  rw [hrp] at hs
  simp only at hs
  subst hs
  rfl

/-- C1: the session budget invariant holds in every reachable state,
`callsMade` never exceeds `maxCalls`; once `callsMade = maxCalls` every
further `requestPermission()` is denied with QuotaExhausted without mutating
the state; and any interleaving of 2 times `maxCalls` concurrently issued
permission requests (each check-and-increment atomic) produces exactly
`maxCalls` grants and `maxCalls` denials, with no overshoot. -/
theorem session_budget_invariant :
    (∀ g, Reachable g → g.callsMade ≤ g.maxCalls)
    ∧ (∀ g now, g.callsMade = g.maxCalls →
        (requestPermission now g).1 = Permission.quotaExhausted
        ∧ (requestPermission now g).2 = g)
    ∧ (∀ (m : Nat) (rl : Bool) (lpm : Nat) (times : List Nat),
        times.length = 2 * m →
        (runPermits times (Governor.init m rl lpm)).grants = m
        ∧ (runPermits times (Governor.init m rl lpm)).denials = m) := by
  refine ⟨reachable_invariant, ?_, ?_⟩
  · intro g now h
    have hle : g.maxCalls ≤ g.callsMade := Nat.le_of_eq h.symm
    rw [requestPermission_denied_of_full now g hle]
    exact ⟨rfl, rfl⟩
  · intro m rl lpm times hlen
    have hg := runPermits_grants times (Governor.init m rl lpm)
    have hd := runPermits_denials times (Governor.init m rl lpm)
    have h0 : (Governor.init m rl lpm).callsMade = 0 := rfl
    have hm : (Governor.init m rl lpm).maxCalls = m := rfl
    rw [h0, hm] at hg
    constructor
    · rw [hg, hlen]; omega
    · rw [hd, hg, hlen]; omega

/-- C1 witness: the invariant, the denial behavior and the concurrent grant
count evaluated at concrete states (ceiling 3, six simultaneous requests). -/
theorem session_budget_invariant_witness :
    (Governor.init 3 true 60).callsMade ≤ (Governor.init 3 true 60).maxCalls
    ∧ (requestPermission 5 { Governor.init 3 true 60 with callsMade := 3 }).1
        = Permission.quotaExhausted
    ∧ (runPermits [0, 0, 0, 0, 0, 0] (Governor.init 3 true 60)).grants = 3
    ∧ (runPermits [0, 0, 0, 0, 0, 0] (Governor.init 3 true 60)).denials = 3 := by
  refine ⟨session_budget_invariant.1 _ (Reachable.init 3 true 60), ?_, ?_, ?_⟩
  · exact (session_budget_invariant.2.1 _ 5 (by decide)).1
  · exact (session_budget_invariant.2.2 3 true 60 [0, 0, 0, 0, 0, 0] (by decide)).1
  · exact (session_budget_invariant.2.2 3 true 60 [0, 0, 0, 0, 0, 0] (by decide)).2

/-- C2: every `call` made once the session quota is exhausted returns an
envelope immediately with success false, an error describing the exhausted
quota and callsRemaining 0, contacts the upstream never (no network
activity), and leaves the Governor state unmutated. -/
theorem quotaExhausted_call_no_network (g : Governor) (now : Nat)
    (outcome : HttpOutcome) (h : g.maxCalls ≤ g.callsMade) :
    (call now outcome g).envelope.success = false
    ∧ (call now outcome g).envelope.callsRemaining = 0
    ∧ (call now outcome g).envelope.error = some (quotaErrorMessage g.maxCalls)
    ∧ (call now outcome g).networkUsed = false
    ∧ (call now outcome g).governor = g := by
  rw [call_denied_of_full now outcome g h]
  refine ⟨rfl, ?_, rfl, rfl, rfl⟩
  simp [Nat.sub_eq_zero_of_le h]

/-- C2 witness: an exhausted Governor (2 of 2 calls used) rejects a call
whose upstream would have returned HTTP 200 with a parsed body. -/
theorem quotaExhausted_call_no_network_witness :
    (call 0 (HttpOutcome.response 200 (some "ok")) gExhausted).envelope.success = false
    ∧ (call 0 (HttpOutcome.response 200 (some "ok")) gExhausted).envelope.callsRemaining = 0
    ∧ (call 0 (HttpOutcome.response 200 (some "ok")) gExhausted).envelope.error
        = some (quotaErrorMessage gExhausted.maxCalls)
    ∧ (call 0 (HttpOutcome.response 200 (some "ok")) gExhausted).networkUsed = false
    ∧ (call 0 (HttpOutcome.response 200 (some "ok")) gExhausted).governor = gExhausted :=
  quotaExhausted_call_no_network gExhausted 0 (HttpOutcome.response 200 (some "ok"))
    (by decide)

/-- C4: the budget is debited exactly once per permitted call, by the
permission step that precedes any upstream activity: the post-call Governor
is exactly the post-permission Governor with `callsMade` incremented by 1,
the upstream is then contacted, and the debit is identical for every
downstream outcome (a 500, timeout or upstream 429 changes nothing about
it), so no downstream outcome or caller cancellation can undo it. -/
theorem budget_debit_once_final (g : Governor) (now : Nat)
    (outcome : HttpOutcome) (h : g.callsMade < g.maxCalls) :
    (call now outcome g).governor.callsMade = g.callsMade + 1
    ∧ (call now outcome g).networkUsed = true
    ∧ (call now outcome g).governor = (requestPermission now g).2
    ∧ ∀ outcome2, (call now outcome2 g).governor = (call now outcome g).governor := by
  refine ⟨?_, ?_, call_governor now outcome g, ?_⟩
  · rw [call_governor now outcome g]
    exact requestPermission_callsMade_of_notfull now g h
  · rw [call_granted_shape now outcome g h]
  · intro outcome2
    rw [call_governor now outcome2 g, call_governor now outcome g]

/-- C4 witness: a call whose upstream fails with HTTP 500 still debits the
fresh Governor's budget by exactly 1, and the debit equals the one of a
timed-out call. -/
theorem budget_debit_once_final_witness :
    (call 0 (HttpOutcome.response 500 none) gFresh).governor.callsMade
        = gFresh.callsMade + 1
    ∧ (call 0 (HttpOutcome.response 500 none) gFresh).networkUsed = true
    ∧ (call 0 (HttpOutcome.response 500 none) gFresh).governor
        = (requestPermission 0 gFresh).2
    ∧ ∀ outcome2, (call 0 outcome2 gFresh).governor
        = (call 0 (HttpOutcome.response 500 none) gFresh).governor :=
  budget_debit_once_final gFresh 0 (HttpOutcome.response 500 none) (by decide)

theorem call_callsRemaining (now : Nat) (outcome : HttpOutcome) (g : Governor) :
    (call now outcome g).envelope.callsRemaining
      = (call now outcome g).governor.maxCalls - (call now outcome g).governor.callsMade := by
  unfold call
  rcases h : requestPermission now g with ⟨p, g1⟩
  cases p <;> simp [getStatus]

theorem runCalls_cons (now : Nat) (o : HttpOutcome) (rest : List HttpOutcome)
    (g : Governor) :
    runCalls now (o :: rest) g =
      ((call now o g).envelope :: (runCalls now rest (call now o g).governor).1,
        (runCalls now rest (call now o g).governor).2) := by
  rfl

theorem runCalls_fst_getD (now : Nat) (outs : List HttpOutcome) :
    ∀ (g : Governor) (i : Nat),
      g.callsMade + outs.length ≤ g.maxCalls → i < outs.length →
      ((runCalls now outs g).1.getD i default).callsRemaining
        = g.maxCalls - (g.callsMade + i + 1) := by
  induction outs with
  | nil =>
      intro g i hbound hi
      simp at hi
  | cons o rest ih =>
      intro g i hbound hi
      have hlt : g.callsMade < g.maxCalls := by
        simp only [List.length_cons] at hbound
        omega
      have hgov := call_governor now o g
      have hmax : (call now o g).governor.maxCalls = g.maxCalls := by
        rw [hgov]; exact requestPermission_maxCalls now g
      have hmade : (call now o g).governor.callsMade = g.callsMade + 1 := by
        rw [hgov]; exact requestPermission_callsMade_of_notfull now g hlt
      rw [runCalls_cons]
      cases i with
      | zero =>
          simp only [List.getD_cons_zero]
          rw [call_callsRemaining, hmax, hmade]
      | succ j =>
          simp only [List.getD_cons_succ]
          have hbound2 : (call now o g).governor.callsMade + rest.length
              ≤ (call now o g).governor.maxCalls := by
            rw [hmax, hmade]
            simp only [List.length_cons] at hbound
            omega
          have hj : j < rest.length := by
            simp only [List.length_cons] at hi
            omega
          rw [ih (call now o g).governor j hbound2 hj, hmax, hmade]
          omega

/-- C3: starting from a fresh Governor, for every sequence of at most
`maxCalls` calls (all permitted, whatever their upstream outcomes), the
envelope of the k-th call reports `callsRemaining = maxCalls - k` (stated
0-indexed: the envelope at index i reports `maxCalls - (i + 1)`); moreover
every envelope `call` ever produces carries `callsRemaining` equal to
`maxCalls - callsMade` of the post-call Governor state, success or not. -/
theorem callsRemaining_accounting :
    (∀ (m : Nat) (rl : Bool) (lpm : Nat) (now : Nat) (outs : List HttpOutcome),
        outs.length ≤ m → ∀ i, i < outs.length →
        ((runCalls now outs (Governor.init m rl lpm)).1.getD i default).callsRemaining
          = m - (i + 1))
    ∧ (∀ (now : Nat) (outcome : HttpOutcome) (g : Governor),
        (call now outcome g).envelope.callsRemaining
          = (call now outcome g).governor.maxCalls
              - (call now outcome g).governor.callsMade) := by
  constructor
  · intro m rl lpm now outs hN i hi
    have h0 : (Governor.init m rl lpm).callsMade = 0 := rfl
    have hm : (Governor.init m rl lpm).maxCalls = m := rfl
    have hbound : (Governor.init m rl lpm).callsMade + outs.length
        ≤ (Governor.init m rl lpm).maxCalls := by
      rw [h0, hm]; omega
    rw [runCalls_fst_getD now outs (Governor.init m rl lpm) i hbound hi, h0, hm]
    omega
  · exact fun now outcome g => call_callsRemaining now outcome g

/-- C3 witness: two calls against a ceiling of 2 (the second failing
upstream with a 500) report callsRemaining 1 then 0, and a failed call's
envelope still carries the remaining-budget figure. -/
theorem callsRemaining_accounting_witness :
    ((runCalls 0 [HttpOutcome.response 200 (some "a"), HttpOutcome.response 500 none]
        (Governor.init 2 true 60)).1.getD 0 default).callsRemaining = 2 - (0 + 1)
    ∧ ((runCalls 0 [HttpOutcome.response 200 (some "a"), HttpOutcome.response 500 none]
        (Governor.init 2 true 60)).1.getD 1 default).callsRemaining = 2 - (1 + 1)
    ∧ (call 0 HttpOutcome.timeout gFresh).envelope.callsRemaining
        = (call 0 HttpOutcome.timeout gFresh).governor.maxCalls
            - (call 0 HttpOutcome.timeout gFresh).governor.callsMade := by
  refine ⟨?_, ?_, callsRemaining_accounting.2 0 HttpOutcome.timeout gFresh⟩
  · exact callsRemaining_accounting.1 2 true 60 0
      [HttpOutcome.response 200 (some "a"), HttpOutcome.response 500 none]
      (by decide) 0 (by decide)
  · exact callsRemaining_accounting.1 2 true 60 0
      [HttpOutcome.response 200 (some "a"), HttpOutcome.response 500 none]
      (by decide) 1 (by decide)

/-- C5: when rate limiting is enabled, every grant issued from a state whose
previous permitted call was at instant t fires no earlier than
t + 60000 / limitPerMinute (and that grant instant becomes the recorded
timestamp, so consecutive permitted calls are never spaced closer than the
derived minimum interval); with rate limiting disabled a permitted call is
granted exactly at the requested instant, with no artificial delay. -/
theorem rate_limit_spacing :
    (∀ (g : Governor) (now t : Nat), g.rateLimitEnabled = true →
        g.lastCallTimestamp = some t → t ≤ now → g.callsMade < g.maxCalls →
        ∃ s, (requestPermission now g).1 = Permission.granted s
          ∧ t + minInterval g ≤ s
          ∧ (requestPermission now g).2.lastCallTimestamp = some s)
    ∧ (∀ (g : Governor) (now : Nat), g.rateLimitEnabled = false →
        g.callsMade < g.maxCalls →
        (requestPermission now g).1 = Permission.granted now
        ∧ (requestPermission now g).2.lastCallTimestamp = some now) := by
  constructor
  · intro g now t hrl hlast hle hlt
    have h2 : ¬ g.callsMade ≥ g.maxCalls := Nat.not_le.mpr hlt
    unfold requestPermission
    rw [if_neg h2]
    simp only [hlast, hrl]
    by_cases hw : now - t < minInterval g
    · exact ⟨t + minInterval g, by simp [hw], Nat.le_refl _, by simp [hw]⟩
    · refine ⟨now, by simp [hw], ?_, by simp [hw]⟩
      omega
  · intro g now hrl hlt
    have h2 : ¬ g.callsMade ≥ g.maxCalls := Nat.not_le.mpr hlt
    unfold requestPermission
    rw [if_neg h2]
    rcases hl : g.lastCallTimestamp with _ | t
    · exact ⟨rfl, rfl⟩
    · simp [hrl]

/-- C5 witness: at 60 calls per minute with the previous call at instant 0,
a back-to-back request at instant 0 is granted no earlier than 1000ms
later; with rate limiting disabled a request at instant 7 is granted at
instant 7. -/
theorem rate_limit_spacing_witness :
    (∃ s, (requestPermission 0 gMid).1 = Permission.granted s
        ∧ 0 + minInterval gMid ≤ s
        ∧ (requestPermission 0 gMid).2.lastCallTimestamp = some s)
    ∧ (requestPermission 7 gNoRL).1 = Permission.granted 7
    ∧ (requestPermission 7 gNoRL).2.lastCallTimestamp = some 7 := by
  refine ⟨rate_limit_spacing.1 gMid 0 0 (by decide) (by decide) (by decide) (by decide),
    ?_, ?_⟩
  · exact (rate_limit_spacing.2 gNoRL 7 (by decide) (by decide)).1
  · exact (rate_limit_spacing.2 gNoRL 7 (by decide) (by decide)).2

theorem quotaErrorMessage_ne_empty (m : Nat) : quotaErrorMessage m ≠ "" := by
  intro h
  have h2 := congrArg String.length h
  simp [quotaErrorMessage, String.length_append] at h2
  exact absurd h2.1.1 (by decide)

theorem classify_failure (o : HttpOutcome) (h : isFailureOutcome o = true) :
    (classify o).1 = false ∧ ∃ msg, (classify o).2.2 = some msg ∧ msg ≠ "" := by
  cases o with
  | response status body =>
      cases body with
      | some d =>
          have h2 : ¬(200 ≤ status ∧ status < 300) := by
            by_contra hc
            simp [isFailureOutcome, hc] at h
          by_cases h429 : status = 429
          · subst h429
            refine ⟨by simp [classify, h2], "Upstream API rate limit exceeded (HTTP 429)",
              by simp [classify, h2], by decide⟩
          · refine ⟨by simp [classify, h2, h429],
              "Upstream HTTP error " ++ toString status,
              by simp [classify, h2, h429], ?_⟩
            intro hEq
            have h3 := congrArg String.length hEq
            simp [String.length_append] at h3
            exact absurd h3.1 (by decide)
      | none =>
          by_cases h2 : 200 ≤ status ∧ status < 300
          · refine ⟨by simp [classify, h2],
              "Failed to parse upstream response body as JSON",
              by simp [classify, h2], by decide⟩
          · by_cases h429 : status = 429
            · subst h429
              refine ⟨by simp [classify, h2], "Upstream API rate limit exceeded (HTTP 429)",
                by simp [classify, h2], by decide⟩
            · refine ⟨by simp [classify, h2, h429],
                "Upstream HTTP error " ++ toString status,
                by simp [classify, h2, h429], ?_⟩
              intro hEq
              have h3 := congrArg String.length hEq
              simp [String.length_append] at h3
              exact absurd h3.1 (by decide)
  | timeout =>
      exact ⟨rfl, "Request timed out", rfl, by decide⟩
  | transportFailure msg =>
      refine ⟨rfl, "Network failure: " ++ msg, rfl, ?_⟩
      intro hEq
      have h3 := congrArg String.length hEq
      simp [String.length_append] at h3
      exact absurd h3.1 (by decide)

theorem toolBoundary_failure (fmt : Option String → String) (env : Envelope)
    (h : env.success = false) :
    toolBoundary fmt env = createErrorResponse "Error searching properties" env.error := by
  simp [toolBoundary, h]

/-- C6: every failure path of a governed call, whether HTTP 4xx/5xx, an
upstream 429, a timeout, a transport failure or a malformed/non-JSON 2xx
body, yields a Result Envelope with success false and a non-empty error
message — `call` is a total function, so no fault propagates uncaught past
the Upstream Client and no data error terminates the process — and at the
tool boundary the handler converts that failing envelope into the
createErrorResponse text result. -/
theorem failure_paths_enveloped (outcome : HttpOutcome) (g : Governor)
    (now : Nat) (fmt : Option String → String)
    (h : isFailureOutcome outcome = true) :
    (call now outcome g).envelope.success = false
    ∧ (∃ msg, (call now outcome g).envelope.error = some msg ∧ msg ≠ "")
    ∧ toolBoundary fmt (call now outcome g).envelope
        = createErrorResponse "Error searching properties"
            (call now outcome g).envelope.error := by
  have hsf : (call now outcome g).envelope.success = false
      ∧ ∃ msg, (call now outcome g).envelope.error = some msg ∧ msg ≠ "" := by
    by_cases hq : g.callsMade < g.maxCalls
    · rw [call_granted_shape now outcome g hq]
      have hc := classify_failure outcome h
      exact ⟨hc.1, hc.2⟩
    · have hfull : g.maxCalls ≤ g.callsMade := Nat.not_lt.mp hq
      rw [call_denied_of_full now outcome g hfull]
      exact ⟨rfl, quotaErrorMessage g.maxCalls, rfl, quotaErrorMessage_ne_empty g.maxCalls⟩
  exact ⟨hsf.1, hsf.2, toolBoundary_failure fmt _ hsf.1⟩

/-- C6 witness: a malformed (non-JSON) body on an HTTP 200 response against
a fresh Governor yields a failing envelope with a non-empty error, and the
tool handler renders it as the standard error text response. -/
theorem failure_paths_enveloped_witness :
    (call 0 (HttpOutcome.response 200 none) gFresh).envelope.success = false
    ∧ (∃ msg, (call 0 (HttpOutcome.response 200 none) gFresh).envelope.error
          = some msg ∧ msg ≠ "")
    ∧ toolBoundary (fun _ => "") (call 0 (HttpOutcome.response 200 none) gFresh).envelope
        = createErrorResponse "Error searching properties"
            (call 0 (HttpOutcome.response 200 none) gFresh).envelope.error :=
  failure_paths_enveloped (HttpOutcome.response 200 none) gFresh 0 (fun _ => "")
    (by decide)

theorem loadConfig_ok_fields (env : Env) (c : ServerConfig)
    (h : loadConfig env = Except.ok c) :
    c.rentcastBaseUrl = getEnv env "RENTCAST_BASE_URL" "https://api.rentcast.io/v1"
    ∧ c.maxApiCalls = getNumberEnv env "MAX_API_CALLS_PER_SESSION" 40
    ∧ c.rateLimitPerMinute = getNumberEnv env "RATE_LIMIT_PER_MINUTE" 60
    ∧ c.timeoutSeconds = getNumberEnv env "TIMEOUT_SECONDS" 30
    ∧ c.enableRateLimiting = getBoolEnv env "ENABLE_RATE_LIMITING" true
    ∧ c.enableFallbackData = getBoolEnv env "ENABLE_FALLBACK_DATA" true
    ∧ c.enableIdempotency = getBoolEnv env "ENABLE_IDEMPOTENCY" true
    ∧ c.enableSmartCaching = getBoolEnv env "ENABLE_SMART_CACHING" true
    ∧ c.enableDataMaximization = getBoolEnv env "ENABLE_DATA_MAXIMIZATION" true
    ∧ c.debug = getBoolEnv env "DEBUG" false := by
  unfold loadConfig at h
  cases hk : getRequiredEnv env "RENTCAST_API_KEY" with
  | error e =>
      rw [hk] at h
      exact absurd h (by simp)
  | ok v =>
      rw [hk] at h
      injection h with h2
      subst h2
      exact ⟨rfl, rfl, rfl, rfl, rfl, rfl, rfl, rfl, rfl, rfl⟩

theorem string_not_isEmpty_of_ne (v : String) (hne : v ≠ "") : v.isEmpty = false := by
  cases hE : v.isEmpty
  · rfl
  · exact absurd ((String.isEmpty_iff v).mp hE) hne

/-- C7: configuration loading succeeds if and only if RENTCAST_API_KEY is
set to a non-empty value (so the process fails to start exactly when the
required key is unset or empty, the only process-fatal condition); every
other variable is optional, a missing or unparseable value yielding its
built-in default: base URL https://api.rentcast.io/v1, maxApiCalls 40,
rateLimitPerMinute 60, timeoutSeconds 30. -/
theorem config_required_key_and_defaults (env : Env) :
    ((∃ c, loadConfig env = Except.ok c)
        ↔ ∃ v, env "RENTCAST_API_KEY" = some v ∧ v ≠ "")
    ∧ ∀ c, loadConfig env = Except.ok c →
        (env "RENTCAST_BASE_URL" = none →
          c.rentcastBaseUrl = "https://api.rentcast.io/v1")
        ∧ (env "MAX_API_CALLS_PER_SESSION" = none → c.maxApiCalls = 40)
        ∧ (∀ v, env "MAX_API_CALLS_PER_SESSION" = some v → parseIntJS v = none →
            c.maxApiCalls = 40)
        ∧ (env "RATE_LIMIT_PER_MINUTE" = none → c.rateLimitPerMinute = 60)
        ∧ (∀ v, env "RATE_LIMIT_PER_MINUTE" = some v → parseIntJS v = none →
            c.rateLimitPerMinute = 60)
        ∧ (env "TIMEOUT_SECONDS" = none → c.timeoutSeconds = 30)
        ∧ (∀ v, env "TIMEOUT_SECONDS" = some v → parseIntJS v = none →
            c.timeoutSeconds = 30) := by
  constructor
  · constructor
    · rintro ⟨c, hc⟩
      unfold loadConfig at hc
      cases hk : getRequiredEnv env "RENTCAST_API_KEY" with
      | error e =>
          rw [hk] at hc
          exact absurd hc (by simp)
      | ok v =>
          unfold getRequiredEnv at hk
          cases he : env "RENTCAST_API_KEY" with
          | none =>
              rw [he] at hk
              exact absurd hk (by simp)
          | some w =>
              rw [he] at hk
              dsimp only at hk
              by_cases hw : w.isEmpty
              · rw [if_pos hw] at hk
                exact absurd hk (by simp)
              · refine ⟨w, rfl, ?_⟩
                intro hEq
                subst hEq
                exact hw rfl
    · rintro ⟨v, hv, hne⟩
      have hvE : v.isEmpty = false := string_not_isEmpty_of_ne v hne
      have hk : getRequiredEnv env "RENTCAST_API_KEY" = Except.ok v := by
        unfold getRequiredEnv
        rw [hv]
        simp [hvE]
      cases hlc : loadConfig env with
      | ok c => exact ⟨c, rfl⟩
      | error e =>
          unfold loadConfig at hlc
          rw [hk] at hlc
          exact absurd hlc (by simp)
  · intro c hc
    obtain ⟨hBase, hMax, hRate, hTime, _, _, _, _, _, _⟩ := loadConfig_ok_fields env c hc
    refine ⟨?_, ?_, ?_, ?_, ?_, ?_, ?_⟩
    · intro hnone; rw [hBase]; simp [getEnv, hnone]
    · intro hnone; rw [hMax]; simp [getNumberEnv, hnone]
    · intro v hv hp
      rw [hMax]
      unfold getNumberEnv
      rw [hv]
      by_cases hE : v.isEmpty
      · simp [hE]
      · simp [hE, hp]
    · intro hnone; rw [hRate]; simp [getNumberEnv, hnone]
    · intro v hv hp
      rw [hRate]
      unfold getNumberEnv
      rw [hv]
      by_cases hE : v.isEmpty
      · simp [hE]
      · simp [hE, hp]
    · intro hnone; rw [hTime]; simp [getNumberEnv, hnone]
    · intro v hv hp
      rw [hTime]
      unfold getNumberEnv
      rw [hv]
      by_cases hE : v.isEmpty
      · simp [hE]
      · simp [hE, hp]

/-- C7 witness: an environment that sets only RENTCAST_API_KEY loads
successfully and yields the default maxApiCalls of 40, rateLimitPerMinute
of 60 and timeoutSeconds of 30. -/
theorem config_required_key_and_defaults_witness :
    ∃ c, loadConfig envKeyOnly = Except.ok c
      ∧ c.maxApiCalls = 40 ∧ c.rateLimitPerMinute = 60 ∧ c.timeoutSeconds = 30 := by
  obtain ⟨c, hc⟩ := (config_required_key_and_defaults envKeyOnly).1.mpr
    ⟨"test-key", by decide, by decide⟩
  have hd := (config_required_key_and_defaults envKeyOnly).2 c hc
  exact ⟨c, hc, hd.2.1 (by decide), hd.2.2.2.1 (by decide), hd.2.2.2.2.2.1 (by decide)⟩

/-- C9: for every boolean configuration flag, an unset or empty variable
yields the flag's built-in default, and otherwise the flag is true exactly
when the value lower-cases to "true" (so any other non-empty value such as
"1", "yes" or "on" yields false even when the default is true); loadConfig
wires ENABLE_RATE_LIMITING, ENABLE_FALLBACK_DATA, ENABLE_IDEMPOTENCY,
ENABLE_SMART_CACHING and ENABLE_DATA_MAXIMIZATION with default true and
DEBUG with default false through this rule. -/
theorem bool_env_flags (env : Env) :
    (∀ (key : String) (d : Bool), env key = none → getBoolEnv env key d = d)
    ∧ (∀ (key : String) (d : Bool), env key = some "" → getBoolEnv env key d = d)
    ∧ (∀ (key : String) (d : Bool) (v : String), env key = some v → v ≠ "" →
        getBoolEnv env key d = (toLowerCase v == "true"))
    ∧ (∀ c, loadConfig env = Except.ok c →
        c.enableRateLimiting = getBoolEnv env "ENABLE_RATE_LIMITING" true
        ∧ c.enableFallbackData = getBoolEnv env "ENABLE_FALLBACK_DATA" true
        ∧ c.enableIdempotency = getBoolEnv env "ENABLE_IDEMPOTENCY" true
        ∧ c.enableSmartCaching = getBoolEnv env "ENABLE_SMART_CACHING" true
        ∧ c.enableDataMaximization = getBoolEnv env "ENABLE_DATA_MAXIMIZATION" true
        ∧ c.debug = getBoolEnv env "DEBUG" false) := by
  refine ⟨?_, ?_, ?_, ?_⟩
  · intro key d h
    simp [getBoolEnv, h]
  · intro key d h
    simp [getBoolEnv, h]
    intro hE
    exact absurd hE (by decide)
  · intro key d v h hne
    have hE : v.isEmpty = false := string_not_isEmpty_of_ne v hne
    simp [getBoolEnv, h, hE]
  · intro c hc
    obtain ⟨_, _, _, _, h5, h6, h7, h8, h9, h10⟩ := loadConfig_ok_fields env c hc
    exact ⟨h5, h6, h7, h8, h9, h10⟩

/-- C9 witness: with every variable set to "1", ENABLE_RATE_LIMITING is
false despite its default being true, because "1" does not lower-case to
"true". -/
theorem bool_env_flags_witness :
    getBoolEnv envAllOne "ENABLE_RATE_LIMITING" true = (toLowerCase "1" == "true")
    ∧ getBoolEnv envAllOne "ENABLE_RATE_LIMITING" true = false := by
  have h := (bool_env_flags envAllOne).2.2.1 "ENABLE_RATE_LIMITING" true "1" rfl
    (by decide)
  exact ⟨h, by rw [h]; decide⟩

theorem strTruthy_field (x : Option String) (s : String) :
    (if strTruthy x then x else none) = some s ↔ x = some s ∧ s ≠ "" := by
  cases x with
  | none => simp [strTruthy]
  | some w =>
      by_cases hw : w = ""
      · subst hw
        simp [strTruthy]
        exact fun h => h.symm
      · simp [strTruthy, hw]
        intro h
        exact h ▸ hw

theorem numTruthy_field (x : Option Rat) (v : Rat) :
    (if numTruthy x then x else none) = some v ↔ x = some v ∧ v ≠ 0 := by
  cases x with
  | none => simp [numTruthy]
  | some w =>
      by_cases hw : w = 0
      · subst hw
        simp [numTruthy]
        exact fun h => h.symm
      · simp [numTruthy, hw]
        intro h
        exact h ▸ hw

theorem limit_field (incl : Bool) (x : Option Rat) (v : Rat) :
    (if incl && numTruthy x then x else none) = some v
      ↔ incl = true ∧ x = some v ∧ v ≠ 0 := by
  cases incl with
  | false => simp
  | true =>
      simp only [Bool.true_and, true_and]
      exact numTruthy_field x v

theorem isSome_field (x : Option Rat) : (if x.isSome then x else none) = x := by
  cases x <;> simp

/-- C8 counterexample: the parameter object p0 supplies bedrooms with the
present, non-null value 0, yet buildPropertySearchParams omits the field
(JavaScript truthiness drops numeric 0), so the outbound parameters do not
contain every field supplied with a present, non-null value. -/
theorem param_inclusion_claim_cex :
    p0.bedrooms = some 0 ∧ (buildPropertySearchParams p0 true).bedrooms = none := by
  constructor
  · rfl
  · decide

/-- C8 amended: a field is included in the outbound parameters exactly when
its supplied value is JavaScript-truthy: for buildPropertySearchParams
(and limit additionally requires includeLimit) strings must be non-empty
and numbers nonzero, while for buildAVMSearchParams the accuracy fields
bedrooms, bathrooms and squareFootage are included exactly when present
(non-absent, non-null — zero is kept) and propertyType when truthy; absent
and null fields are always omitted, and included fields keep their value. -/
theorem param_inclusion_truthy (p : PropertySearchInput) (q : AVMInput)
    (incl : Bool) :
    (∀ v, (buildPropertySearchParams p incl).limit = some v
        ↔ incl = true ∧ p.limit = some v ∧ v ≠ 0)
    ∧ (∀ s, (buildPropertySearchParams p incl).city = some s
        ↔ p.city = some s ∧ s ≠ "")
    ∧ (∀ s, (buildPropertySearchParams p incl).state = some s
        ↔ p.state = some s ∧ s ≠ "")
    ∧ (∀ s, (buildPropertySearchParams p incl).zipCode = some s
        ↔ p.zipCode = some s ∧ s ≠ "")
    ∧ (∀ v, (buildPropertySearchParams p incl).bedrooms = some v
        ↔ p.bedrooms = some v ∧ v ≠ 0)
    ∧ (∀ v, (buildPropertySearchParams p incl).bathrooms = some v
        ↔ p.bathrooms = some v ∧ v ≠ 0)
    ∧ (∀ s, (buildPropertySearchParams p incl).propertyType = some s
        ↔ p.propertyType = some s ∧ s ≠ "")
    ∧ (∀ s, (buildAVMSearchParams q).propertyType = some s
        ↔ q.propertyType = some s ∧ s ≠ "")
    ∧ (buildAVMSearchParams q).bedrooms = q.bedrooms
    ∧ (buildAVMSearchParams q).bathrooms = q.bathrooms
    ∧ (buildAVMSearchParams q).squareFootage = q.squareFootage := by
  refine ⟨?_, ?_, ?_, ?_, ?_, ?_, ?_, ?_, ?_, ?_, ?_⟩
  · exact fun v => limit_field incl p.limit v
  · exact fun s => strTruthy_field p.city s
  · exact fun s => strTruthy_field p.state s
  · exact fun s => strTruthy_field p.zipCode s
  · exact fun v => numTruthy_field p.bedrooms v
  · exact fun v => numTruthy_field p.bathrooms v
  · exact fun s => strTruthy_field p.propertyType s
  · exact fun s => strTruthy_field q.propertyType s
  · exact isSome_field q.bedrooms
  · exact isSome_field q.bathrooms
  · exact isSome_field q.squareFootage

/-- C8 witness: a truthy city is included with its value, and an AVM
bedrooms value is kept exactly as supplied. -/
theorem param_inclusion_truthy_witness :
    (buildPropertySearchParams p1 true).city = some "Austin"
    ∧ (buildAVMSearchParams q1).bedrooms = q1.bedrooms := by
  refine ⟨?_, (param_inclusion_truthy p1 q1 true).2.2.2.2.2.2.2.2.1⟩
  exact ((param_inclusion_truthy p1 q1 true).2.1 "Austin").mpr ⟨by decide, by decide⟩

/-- C10 counterexample: in q0 both latitude (0) and longitude (1) are
present and non-null and no address is given, so the claim requires the
coordinates to be used and propertyId omitted; the code instead drops the
coordinates (latitude 0 is JavaScript-falsy) and uses propertyId. -/
theorem avm_priority_claim_cex :
    q0.address = none ∧ q0.latitude = some 0 ∧ q0.longitude = some 1
    ∧ q0.propertyId = some "p1"
    ∧ (buildAVMSearchParams q0).latitude = none
    ∧ (buildAVMSearchParams q0).longitude = none
    ∧ (buildAVMSearchParams q0).propertyId = some "p1" := by
  refine ⟨rfl, rfl, rfl, rfl, ?_, ?_, ?_⟩ <;> decide

/-- C10 amended: buildAVMSearchParams includes at most one property
identifier, chosen by fixed priority over JavaScript-truthy values: a
truthy (non-empty) address wins and suppresses the others; otherwise a pair
of truthy (nonzero) coordinates is used and propertyId omitted; otherwise a
truthy propertyId is used; a coordinate pair with either component absent,
null or zero is silently dropped, as is an empty-string address or
propertyId. -/
theorem avm_identifier_priority (q : AVMInput) :
    (strTruthy q.address = true →
        (buildAVMSearchParams q).address = q.address
        ∧ (buildAVMSearchParams q).latitude = none
        ∧ (buildAVMSearchParams q).longitude = none
        ∧ (buildAVMSearchParams q).propertyId = none)
    ∧ (strTruthy q.address = false →
        (numTruthy q.latitude && numTruthy q.longitude) = true →
        (buildAVMSearchParams q).address = none
        ∧ (buildAVMSearchParams q).latitude = q.latitude
        ∧ (buildAVMSearchParams q).longitude = q.longitude
        ∧ (buildAVMSearchParams q).propertyId = none)
    ∧ (strTruthy q.address = false →
        (numTruthy q.latitude && numTruthy q.longitude) = false →
        strTruthy q.propertyId = true →
        (buildAVMSearchParams q).address = none
        ∧ (buildAVMSearchParams q).latitude = none
        ∧ (buildAVMSearchParams q).longitude = none
        ∧ (buildAVMSearchParams q).propertyId = q.propertyId)
    ∧ (strTruthy q.address = false →
        (numTruthy q.latitude && numTruthy q.longitude) = false →
        strTruthy q.propertyId = false →
        (buildAVMSearchParams q).address = none
        ∧ (buildAVMSearchParams q).latitude = none
        ∧ (buildAVMSearchParams q).longitude = none
        ∧ (buildAVMSearchParams q).propertyId = none) := by
  refine ⟨?_, ?_, ?_, ?_⟩
  · intro h1
    simp [buildAVMSearchParams, h1]
  · intro h1 h2
    simp [buildAVMSearchParams, h1, h2]
  · intro h1 h2 h3
    simp [buildAVMSearchParams, h1, h2, h3]
  · intro h1 h2 h3
    simp [buildAVMSearchParams, h1, h2, h3]

/-- C10 witness: with no address, nonzero coordinates and a propertyId, the
coordinates are used and the propertyId is omitted. -/
theorem avm_identifier_priority_witness :
    (buildAVMSearchParams q1).address = none
    ∧ (buildAVMSearchParams q1).latitude = q1.latitude
    ∧ (buildAVMSearchParams q1).longitude = q1.longitude
    ∧ (buildAVMSearchParams q1).propertyId = none :=
  (avm_identifier_priority q1).2.1 (by decide) (by decide)
